import Mathlib

/-!
Verification of the connection & packet-ordering subsystem of the
inworld-web-sdk client (packages/web-core).

The development shallowly embeds:
  * the packet object model (`InworldPacket`),
  * the transport channel (`WebSocketConnection`, from
    src/packages/web-core/src/common/constants.ts, lines 58-162),
  * the connection orchestrator (`ConnectionService`, from
    src/packages/web-core/src/services/connection.service.ts),
  * the session-state persistence loop (`SessionStateService`, same file).

Stateful TypeScript methods become pure functions from state to state;
the wire (`ws.send` calls), the external callbacks (`onMessage`,
`onInterruption`, `onError`) and the audio-queue handoffs are recorded as
append-only logs inside the state so that ordering and frame properties
can be stated.  External collaborators (session-token generator, scene
loader, audio playback sink) are deterministic oracles passed in as
explicit arguments, mirroring their injected-capability role.
-/

/-! ## Packet model

Modelled from the spec: the packet entity
(src/packages/web-core/src/entities/inworld_packet.entity.ts) is not part
of the provided sources — only its unit tests are — so the record and its
classification predicates follow spec sections 3 and 4.1: an immutable
record with a `type` discriminant, at most one payload variant matching
the discriminant, and one boolean predicate per variant agreeing with
`type`; `isInteractionEnd` holds when `isControl` and the control
sub-type is `INTERACTION_END`.  The shape of every field matches the
constructor calls exercised by
__tests__/entities/inworld_packet.entity.spec.ts. -/

inductive InworldPacketType
  | AUDIO
  | TEXT
  | TRIGGER
  | EMOTION
  | SILENCE
  | CANCEL_RESPONSE
  | CONTROL
  | UNKNOWN
deriving DecidableEq, Repr

inductive InworlControlType
  | INTERACTION_END
  | TTS_PLAYBACK_MUTE
  | UNKNOWN
deriving DecidableEq, Repr

structure PacketId where
  packetId : String
  interactionId : String
  utteranceId : String
  correlationId : Option String := none
deriving DecidableEq, Repr

structure Actor where
  name : String
  isPlayer : Bool
  isCharacter : Bool
deriving DecidableEq, Repr

structure Routing where
  source : Actor
  targets : List Actor
deriving DecidableEq, Repr

structure TextEvent where
  text : String
  final : Bool
deriving DecidableEq, Repr

structure AudioEvent where
  chunk : String
deriving DecidableEq, Repr

structure SilenceEvent where
  durationMs : Nat
deriving DecidableEq, Repr

/-- Cancel-response payload: the interaction being cancelled plus the
utterance ids discarded for it.  The same shape is used for the
`sendCancelResponses` argument (`CancelResponsesProps` in
common/data_structures). -/
structure CancelResponsesProps where
  interactionId : String
  utteranceId : List String
deriving DecidableEq, Repr

structure ControlEvent where
  type : InworlControlType
deriving DecidableEq, Repr

structure InworldPacket where
  packetId : PacketId
  routing : Routing
  date : String
  type : InworldPacketType
  text : Option TextEvent := none
  audio : Option AudioEvent := none
  silence : Option SilenceEvent := none
  cancelResponses : Option CancelResponsesProps := none
  control : Option ControlEvent := none
deriving DecidableEq, Repr

def InworldPacket.isText (p : InworldPacket) : Bool :=
  p.type == InworldPacketType.TEXT

def InworldPacket.isAudio (p : InworldPacket) : Bool :=
  p.type == InworldPacketType.AUDIO

def InworldPacket.isTrigger (p : InworldPacket) : Bool :=
  p.type == InworldPacketType.TRIGGER

def InworldPacket.isEmotion (p : InworldPacket) : Bool :=
  p.type == InworldPacketType.EMOTION

def InworldPacket.isSilence (p : InworldPacket) : Bool :=
  p.type == InworldPacketType.SILENCE

def InworldPacket.isCancelResponse (p : InworldPacket) : Bool :=
  p.type == InworldPacketType.CANCEL_RESPONSE

def InworldPacket.isControl (p : InworldPacket) : Bool :=
  p.type == InworldPacketType.CONTROL

def InworldPacket.isInteractionEnd (p : InworldPacket) : Bool :=
  p.isControl &&
    (match p.control with
     | some c => c.type == InworlControlType.INTERACTION_END
     | none => false)

/-! ## Transport channel: `WebSocketConnection`

From src/packages/web-core/src/common/constants.ts lines 58-162.  The
socket handle `this.ws` becomes `Option SocketState` (`none` = the field
is null/undefined); `ws.send(JSON.stringify(packet))` appends the packet
to the `wire` log; the `onDisconnect` collaborator invocation and the
`ws.close()` call are counted so that "fires exactly once" is statable.
A queue item keeps the packet its `getPacket` producer returns together
with a tag recording which hooks the item carries.  `write` is an async
method: its active branch suspends at the awaited `beforeWriting` hook
before `ws.send`, and the ready-signal flush fires all queued writes
without awaiting them, so delivery order is governed by the host's FIFO
microtask queue; `microtaskFlush` below models that scheduling, while
the orchestrator-level embedding inlines the hook bodies of a single
un-contended write. -/

inductive ReadyState
  | CONNECTING
  | OPEN
  | CLOSED
deriving DecidableEq, Repr

structure SocketState where
  readyState : ReadyState
  listeners : Bool
deriving DecidableEq, Repr

/-- Which before/after hooks a queue item carries (`QueueItem` in
constants.ts has optional `beforeWriting`/`afterWriting` closures; the
three call sites of the orchestrator install three distinct pairs). -/
inductive HookKind
  | plainItem
  | serviceWrite
  | replayWrite
deriving DecidableEq, Repr

structure QueueItem where
  packet : InworldPacket
  hook : HookKind := HookKind.plainItem
deriving DecidableEq, Repr

structure WebSocketConnection where
  ws : Option SocketState
  packetQueue : List QueueItem
  wire : List InworldPacket
  disconnectFired : Nat
  closeCalled : Nat
deriving DecidableEq, Repr

/-- A freshly constructed connection: `this.ws` unset, empty queue. -/
def WebSocketConnection.init : WebSocketConnection :=
  { ws := none, packetQueue := [], wire := [], disconnectFired := 0,
    closeCalled := 0 }

/-- Source: `isActive()`: `this.ws?.readyState === WebSocket.OPEN`. -/
def WebSocketConnection.isActive (c : WebSocketConnection) : Bool :=
  match c.ws with
  | some s => s.readyState == ReadyState.OPEN
  | none => false

/-- Source: `ws.send(JSON.stringify(packet))`. -/
def WebSocketConnection.sendRaw (c : WebSocketConnection)
    (p : InworldPacket) : WebSocketConnection :=
  { c with wire := c.wire ++ [p] }

/-- Source: `open({session, packets, convertPacketFromProto})`: prepends the
supplied items to the internal queue and creates the socket (which starts
in the CONNECTING state with all four event listeners attached).  The
session credentials and the converter only feed the socket URL /
deserialisation and are not part of the modelled state. -/
def WebSocketConnection.openSocket (c : WebSocketConnection)
    (packets : List QueueItem) : WebSocketConnection :=
  let c1 :=
    if packets.length != 0 then
      { c with packetQueue := packets ++ c.packetQueue }
    else c
  { c1 with ws := some { readyState := ReadyState.CONNECTING, listeners := true } }

/-- Source: `write(item)` taken while the socket is NOT active: the item
is appended to the tail of the internal queue
(`this.packetQueue.push(item)`).  The active branch of `write` is an
async method that suspends at `await item.beforeWriting?.(inworldPacket)`
before `ws.send`; the transport-level model of that suspension is the
microtask scheduler below (`microtaskFlush`), and the orchestrator-level
embedding (`ConnectionService.writeCore`) inlines the hook bodies of a
single un-contended write instead. -/
def WebSocketConnection.writeInactive (c : WebSocketConnection)
    (item : QueueItem) : WebSocketConnection :=
  { c with packetQueue := c.packetQueue ++ [item] }

/-- Number of microtask continuations the async `write(item)` runs
before its `ws.send` once the flush has invoked it.  Derived from the
source's await chain:

* `await item.beforeWriting?.(inworldPacket)` (constants.ts line 114)
  always defers at least one microtask — also when the hook is absent
  (replay and mute items) or when the hook's async body returns without
  suspending (the `serviceWrite` hook on a non-TEXT, non-AUDIO packet
  only skips both guards; on AUDIO it records Packets-In-Progress
  synchronously): one continuation, the one that performs `ws.send`;
* the `serviceWrite` hook of a TEXT packet additionally suspends at
  `await this.interruptByPacket(packet)` (connection.service.ts lines
  320-322).  With the interruptions capability disabled that call
  returns at its guard, so exactly one extra continuation elapses
  before the hook resolves: `ws.send` runs in the second continuation.
  (With the capability enabled, `interruptByPacket` additionally awaits
  `stopForInteraction`, adding further continuations — the gap to the
  one-tick items only widens.) -/
def QueueItem.awaitTicks (item : QueueItem) : Nat :=
  match item.hook with
  | HookKind.serviceWrite => if item.packet.isText then 2 else 1
  | HookKind.replayWrite => 1
  | HookKind.plainItem => 1

/-- The host's microtask queue during the flush, restricted to the
pending `write` continuations.  The flush (`forEach` of the async
`write`, fire and forget) enqueues each item's first continuation in
queue order; thereafter, a running continuation that is not the final
one resolves the promise its successor awaits, enqueueing that successor
at the TAIL of the microtask queue; the final continuation performs
`ws.send` (and `afterWriting`).  A task is an item paired with the
number of continuations still to run before its send. -/
def microtaskFlush (tasks : List (QueueItem × Nat))
    (wire : List InworldPacket) : List InworldPacket :=
  match tasks with
  | [] => wire
  | (item, n) :: rest =>
    if n <= 1 then microtaskFlush rest (wire ++ [item.packet])
    else microtaskFlush (rest ++ [(item, n - 1)]) wire
termination_by tasks.length + (tasks.map Prod.snd).sum
decreasing_by
  all_goals
    simp only [List.length_cons, List.map_cons, List.sum_cons,
      List.length_append, List.map_append, List.sum_append,
      List.length_nil, List.map_nil, List.sum_nil]
    omega

/-- Source: `close()`: detach the four event listeners first, then — only if the
socket is active — call `ws.close()` and fire the `onDisconnect`
collaborator; finally null the socket and clear the queue. -/
def WebSocketConnection.close (c : WebSocketConnection) : WebSocketConnection :=
  let c1 :=
    match c.ws with
    | some s => { c with ws := some { s with listeners := false } }
    | none => c
  let c2 :=
    if c1.isActive then
      { c1 with
        ws := c1.ws.map (fun s => { s with readyState := ReadyState.CLOSED }),
        closeCalled := c1.closeCalled + 1,
        disconnectFired := c1.disconnectFired + 1 }
    else c1
  { c2 with ws := none, packetQueue := [] }

/-- The `open` browser event: the socket's readyState becomes OPEN, then
the deferred `onReady` handler runs
`this.packetQueue.forEach((item) => this.write(item))` — fire-and-forget
calls of the async `write`, so each item's `ws.send` lands on the wire
only after its `awaitTicks` microtask continuations have been scheduled
through the FIFO microtask queue — and clears the queue. -/
def WebSocketConnection.onReadyFlush (c : WebSocketConnection) : WebSocketConnection :=
  match c.ws with
  | none => c
  | some s =>
    { c with
      ws := some { s with readyState := ReadyState.OPEN },
      wire := microtaskFlush
        (c.packetQueue.map (fun item => (item, item.awaitTicks))) c.wire,
      packetQueue := [] }

/-! ## Orchestrator data model: `ConnectionService`

From src/packages/web-core/src/services/connection.service.ts.  The two
JavaScript object maps (`cancelResponses : {[id]: boolean}` and
`packetsInProgress : {[id]: () => ProtoPacket}`) become a list of marked
ids and an association list in string-key insertion order: assigning an
existing key overwrites in place, assigning a fresh key appends, and
`delete` removes the key — exactly the enumeration order `Object.keys`
observes. -/

inductive ConnectionState
  | INACTIVE
  | LOADING
  | LOADED
  | ACTIVATING
  | ACTIVE
  | RECONNECTING
deriving DecidableEq, Repr

inductive TtsPlaybackAction
  | UNKNOWN
  | MUTE
  | UNMUTE
deriving DecidableEq, Repr

structure SessionToken where
  token : String
  type : String
  expirationTime : Nat
  sessionId : String
deriving DecidableEq, Repr

/-- Modelled from the spec: `SessionToken.isExpired`
(entities/session_token.entity.ts is not part of the provided sources) —
"Session Token — opaque credential with expiry"; the token is expired
once the current time has reached its expiration time. -/
def SessionToken.isExpired (now : Nat) (t : SessionToken) : Bool :=
  t.expirationTime <= now

/-- Modelled from the spec: the scene loader collaborator returns an
agent roster plus an optional previous-state snapshot (spec section 6);
only those two observations reach the orchestrator state. -/
structure Scene where
  agents : List String
  previousStatePackets : List InworldPacket
deriving DecidableEq, Repr

/-- The slice of `InternalClientConfiguration` the embedded methods read:
`config?.connection?.autoReconnect` (missing means the `?? true` default
applies), `config?.connection?.disconnectTimeout` (missing or 0 is
falsy), `config?.capabilities.interruptions`, and
`config?.history?.previousState`. -/
structure Config where
  autoReconnect : Option Bool
  disconnectTimeout : Option Nat
  interruptions : Bool
  historyPreviousState : Bool
deriving DecidableEq, Repr

/-- Deterministic environment for the injected collaborators consulted
during (re)connection: what `generateSessionToken()` resolves to, what
`engineService.loadScene` resolves to, and the current time used by the
token-expiry check.  Neither collaborator fails in the model (error
handling of collaborator rejections is outside the verified claims). -/
structure Env where
  generatedToken : SessionToken
  loadedScene : Scene
  now : Nat
deriving Repr

/-- Oracle for the `grpcAudioPlayer` collaborator (external playback
sink, spec section 6): what `getCurrentPacket()` returns and what
`stopForInteraction(id)` resolves to. -/
structure Player where
  currentPacket : Option InworldPacket
  stopForInteraction : String -> List InworldPacket

structure ConnectionService where
  state : ConnectionState
  session : Option SessionToken
  scene : Option Scene
  conn : WebSocketConnection
  config : Config
  ttsPlaybackAction : TtsPlaybackAction
  cancelResponses : List String
  packetsInProgress : List (String × InworldPacket)
  history : List InworldPacket
  audioQueueAdds : List InworldPacket
  onMessageLog : List InworldPacket
  onInterruptionLog : List CancelResponsesProps
  onErrorLog : List String
  disconnectTimerArmed : Bool
deriving DecidableEq, Repr

/-- JS object assignment `map[k] = v` / spread `{...map, [k]: v}`:
overwrite in place when the key exists, append otherwise. -/
def upsertKey (l : List (String × InworldPacket)) (k : String)
    (v : InworldPacket) : List (String × InworldPacket) :=
  if (l.find? (fun kv => kv.1 == k)).isSome then
    l.map (fun kv => if kv.1 == k then (k, v) else kv)
  else l ++ [(k, v)]

/-- JS `delete map[k]`. -/
def eraseKey (l : List (String × InworldPacket)) (k : String) :
    List (String × InworldPacket) :=
  l.filter (fun kv => kv.1 != k)

/-- JS `map[k]` read (used through its truthiness / presence). -/
def lookupKey (l : List (String × InworldPacket)) (k : String) :
    Option InworldPacket :=
  (l.find? (fun kv => kv.1 == k)).map (fun kv => kv.2)

/-- Source: `{...set, [k]: true}` on the boolean-marker map. -/
def insertId (l : List String) (k : String) : List String :=
  if l.contains k then l else l ++ [k]

/-- Source: `delete set[k]` on the boolean-marker map. -/
def eraseId (l : List String) (k : String) : List String :=
  l.filter (fun x => x != k)

/-- Source: `isActive()`: `this.state === ConnectionState.ACTIVE`. -/
def ConnectionService.isActive (s : ConnectionService) : Bool :=
  s.state == ConnectionState.ACTIVE

/-- Source: `isAutoReconnected()`:
`this.connectionProps.config?.connection?.autoReconnect ?? true`. -/
def ConnectionService.isAutoReconnected (s : ConnectionService) : Bool :=
  s.config.autoReconnect.getD true

/-- Truthiness of `config?.connection?.disconnectTimeout`. -/
def Config.disconnectTimeoutTruthy (c : Config) : Bool :=
  match c.disconnectTimeout with
  | some t => t != 0
  | none => false

/-- Source: `cancelScheduler()`: clears the pending idle-disconnect timeout. -/
def ConnectionService.cancelScheduler (s : ConnectionService) : ConnectionService :=
  { s with disconnectTimerArmed := false }

/-- Source: `scheduleDisconnect()`: when a nonzero disconnect timeout is
configured, cancels and re-arms the idle-disconnect timer. -/
def ConnectionService.scheduleDisconnect (s : ConnectionService) : ConnectionService :=
  if s.config.disconnectTimeoutTruthy then
    { s with disconnectTimerArmed := true }
  else s

/-- Source: `addPacketToHistory(packet)`.  Modelled from the spec:
`InworldHistory.addOrUpdate` (components/history is not part of the
provided sources) is an opaque accumulator ingesting packets in arrival
order; the orchestrator relies only on its changed-entries answer being
non-empty, so the model appends the packet and always reports a change
(firing `onHistoryChange`, which is not separately logged). -/
def ConnectionService.addPacketToHistory (s : ConnectionService)
    (p : InworldPacket) : ConnectionService :=
  { s with history := s.history ++ [p] }

/-- Modelled from the spec: `InworldHistory.filter(interruption)` "asks
History to mark those entries as filtered/cancelled" — entries of the
interrupted interaction whose utterance is among the cancelled ones are
dropped from the view. -/
def historyFilter (h : List InworldPacket) (props : CancelResponsesProps) :
    List InworldPacket :=
  h.filter (fun p =>
    !(p.packetId.interactionId == props.interactionId &&
      props.utteranceId.contains p.packetId.utteranceId))

/-- Modelled from the spec: `EventFactory.cancelResponse` (factories/event
is not part of the provided sources) constructs "a CANCEL_RESPONSE packet
naming that interaction and the stopped utterance ids"; the packet is
routed from the player and carries the cancel-response payload. -/
def EventFactory.cancelResponse (props : CancelResponsesProps) : InworldPacket :=
  { packetId :=
      { packetId := "", interactionId := props.interactionId,
        utteranceId := "", correlationId := none },
    routing :=
      { source := { name := "player", isPlayer := true, isCharacter := false },
        targets := [] },
    date := "",
    type := InworldPacketType.CANCEL_RESPONSE,
    cancelResponses := some props }

/-- Modelled from the spec: `EventFactory.ttsPlaybackMute(true)` — the
"mute signal" control packet queued for send-on-open when reconnecting
with playback muted. -/
def EventFactory.ttsPlaybackMute (_muted : Bool) : InworldPacket :=
  { packetId :=
      { packetId := "", interactionId := "", utteranceId := "",
        correlationId := none },
    routing :=
      { source := { name := "player", isPlayer := true, isCharacter := false },
        targets := [] },
    date := "",
    type := InworldPacketType.CONTROL,
    control := some { type := InworlControlType.TTS_PLAYBACK_MUTE } }

/-! ## Orchestrator operations -/

/-- Source: `ensureSessionToken(props?)` (connection.service.ts lines 387-407).
When the session is empty or expired the generator is awaited; the
`withBeforeLoading` flag stands for the presence of the optional
`beforeLoading` callback `loadScene` passes in (it sets the state to
LOADING).  The reassignment mirrors the source literally:

  if (sessionId) { sessionToken = { ...this.session, sessionId }; }

i.e. the spread is over the OLD `this.session`, with `sessionId` (read
from that same old session) written on top. -/
def ConnectionService.ensureSessionToken (env : Env)
    (s : ConnectionService) (withBeforeLoading : Bool) : ConnectionService :=
  match s.session with
  | none =>
    let s1 := if withBeforeLoading then { s with state := ConnectionState.LOADING } else s
    { s1 with session := some env.generatedToken }
  | some tok =>
    if SessionToken.isExpired env.now tok then
      let sessionId := tok.sessionId
      let s1 := if withBeforeLoading then { s with state := ConnectionState.LOADING } else s
      let sessionToken :=
        if sessionId != "" then { tok with sessionId := sessionId }
        else env.generatedToken
      { s1 with session := some sessionToken }
    else s

/-- Source: `loadScene()` (lines 339-385): early-out while LOADING; ensure the
session token (with `beforeLoading` setting LOADING); load the scene
exactly once per session (the localStorage read and the session
continuation only feed the collaborator call, whose result is
`env.loadedScene`); apply the previous-state snapshot to history when
`config?.history?.previousState` is set; finally promote LOADING or
INACTIVE to LOADED.  Collaborators do not fail in the model, so the
surrounding try/catch is not exercised. -/
def ConnectionService.loadScene (env : Env) (s : ConnectionService) :
    ConnectionService :=
  if s.state == ConnectionState.LOADING then s
  else
    let s1 := s.ensureSessionToken env true
    let s2 :=
      match s1.scene with
      | some _ => s1
      | none =>
        let s2a := { s1 with scene := some env.loadedScene }
        if s2a.config.historyPreviousState then
          { s2a with history := s2a.history ++ env.loadedScene.previousStatePackets }
        else s2a
    if s2.state == ConnectionState.LOADING || s2.state == ConnectionState.INACTIVE
    then { s2 with state := ConnectionState.LOADED }
    else s2

/-- Source: `getPacketsToSentOnOpen()` (lines 682-713): a mute-signal item when
auto-reconnecting with TTS playback muted, plus — only while the state is
RECONNECTING — one replay item per entry of Packets-In-Progress (whose
map is drained).  Returns the item list together with the mutated
service. -/
def ConnectionService.getPacketsToSentOnOpen (s : ConnectionService) :
    List QueueItem × ConnectionService :=
  let packets : List QueueItem :=
    if s.isAutoReconnected && s.ttsPlaybackAction == TtsPlaybackAction.MUTE then
      [{ packet := EventFactory.ttsPlaybackMute true, hook := HookKind.plainItem }]
    else []
  if s.state == ConnectionState.RECONNECTING then
    let notAppliedPackets := s.packetsInProgress
    let s1 := { s with packetsInProgress := [] }
    (packets ++ notAppliedPackets.map
        (fun kv => { packet := kv.2, hook := HookKind.replayWrite }),
     s1)
  else (packets, s)

/-- Source: `open()` (lines 190-210): capture the send-on-open items, load the
scene, and — only if that reached LOADED — activate: state becomes
ACTIVATING and the transport opens with the captured items (prepending
them to its queue); then the idle-disconnect is scheduled. -/
def ConnectionService.openConnection (env : Env) (s : ConnectionService) :
    ConnectionService :=
  let pair := s.getPacketsToSentOnOpen
  let s2 := pair.2.loadScene env
  if s2.state == ConnectionState.LOADED then
    let s3 := { s2 with state := ConnectionState.ACTIVATING }
    let s4 := { s3 with conn := s3.conn.openSocket pair.1 }
    s4.scheduleDisconnect
  else s2

/-- The helper of `sessionExpiredRegExp`: scanning from a position,
either the literal suffix " expired or invalid" starts here, or one
non-newline character is consumed (the `.` of `(.*?)` does not match
newlines; laziness is irrelevant to `.test`). -/
def middleThenSuffix : List Char -> Bool
  | [] => (" expired or invalid".toList).isPrefixOf ([] : List Char)
  | c :: t =>
    if (" expired or invalid".toList).isPrefixOf (c :: t) then true
    else if c == '\n' then false
    else middleThenSuffix t

/-- Source: `sessionExpiredRegExp.test(message)` for
`new RegExp('Session (.*?) expired or invalid')`: some position of the
message starts "Session ", followed — with no intervening newline — by
" expired or invalid". -/
def sessionExpiredTest : List Char -> Bool
  | [] => false
  | c :: t =>
    (if ("Session ".toList).isPrefixOf (c :: t) then
       middleThenSuffix ((c :: t).drop 8)
     else false)
    || sessionExpiredTest t

/-- Source: `const invalidToken = 'invalid JWT token'` (line 72). -/
def invalidToken : String := "invalid JWT token"

/-- The `this.onError` handler (lines 471-490): report the error to the
external collaborator (logged), and when the message matches the
session-expired pattern or equals the invalid-token string while
auto-reconnect is enabled, drop the session token and the loaded scene,
reset the state to INACTIVE and call `open()` again. -/
def ConnectionService.onErrorHandler (env : Env) (s : ConnectionService)
    (message : String) : ConnectionService :=
  let s0 := { s with onErrorLog := s.onErrorLog ++ [message] }
  if (sessionExpiredTest message.toList || message == invalidToken)
      && s0.isAutoReconnected then
    let s1 := { s0 with
      session := none, scene := none, state := ConnectionState.INACTIVE }
    s1.openConnection env
  else s0

/-- Source: `write(getPacket)` (lines 289-337), with the body of the
`connection.write` call (constants.ts lines 108-120) inlined because its
`beforeWriting`/`afterWriting` hooks are the orchestrator closures:

* transport active: `getPacket()` is converted, `beforeWriting` runs
  (TEXT packets first run the interruption protocol, then TEXT/AUDIO
  packets are recorded into Packets-In-Progress keyed by interaction id),
  the packet is transmitted, and `afterWriting` reschedules the
  idle-disconnect and appends the packet to history;
* transport inactive: the item (packet plus its service hooks) is
  appended to the tail of the transport queue;
* afterwards (step 2 of the source), if the service is not ACTIVE,
  `open()` is invoked.

The interruption protocol is received as the `interruptF` parameter —
exactly the dynamic `this.interruptByPacket` dispatch of the closure.
The polling `resolvePacket` promise only produces the method's return
value and touches no modelled state, so it is not represented. -/
def ConnectionService.writeCore
    (interruptF : ConnectionService -> InworldPacket -> ConnectionService)
    (env : Env) (s : ConnectionService) (p : InworldPacket) : ConnectionService :=
  let s5 :=
    if s.conn.isActive then
      let s1 := if p.isText then interruptF s p else s
      let s2 :=
        if p.isText || p.isAudio then
          { s1 with packetsInProgress :=
              upsertKey s1.packetsInProgress p.packetId.interactionId p }
        else s1
      let s3 := { s2 with conn := s2.conn.sendRaw p }
      (s3.scheduleDisconnect).addPacketToHistory p
    else
      { s with conn := { s.conn with packetQueue :=
          s.conn.packetQueue ++ [{ packet := p, hook := HookKind.serviceWrite }] } }
  if !s5.isActive then s5.openConnection env else s5

/-- Message of the usage error thrown by `send` on an inactive
connection (connection.service.ts line 217). -/
def inactiveConnectionMessage : String :=
  "Unable to send data due inactive connection"

/-- Source: `send(getPacket)` (lines 212-224): cancel the pending
idle-disconnect; while not ACTIVE with auto-reconnect disabled, throw the
inactive-connection usage error — caught by the surrounding try/catch and
routed to `this.onError` — otherwise delegate to `write`.  The write
behaviour is a parameter for the same dynamic-dispatch reason as in
`writeCore`. -/
def ConnectionService.sendWith
    (writeF : ConnectionService -> InworldPacket -> ConnectionService)
    (env : Env) (s : ConnectionService) (p : InworldPacket) : ConnectionService :=
  let s0 := s.cancelScheduler
  if !s0.isActive && !s0.isAutoReconnected then
    s0.onErrorHandler env inactiveConnectionMessage
  else writeF s0 p

/-- The `this.send(() => factory.cancelResponse(...))` call issued by
`sendCancelResponses`: its packet is a CANCEL_RESPONSE, which never
satisfies `isText`, so the interruption hook inside `write` is dead on
this path (`writeCore_hook_irrelevant` below proves the instantiation
immaterial for any non-TEXT packet); the hook slot is therefore
instantiated with the identity. -/
def ConnectionService.sendCancelPacket (env : Env) (s : ConnectionService)
    (p : InworldPacket) : ConnectionService :=
  ConnectionService.sendWith
    (ConnectionService.writeCore (fun s' _ => s') env) env s p

/-- Source: `sendCancelResponses(cancelResponses, characters?)` (lines 623-646):
when the interaction id is truthy, send a cancel-response packet built by
the event factory (the `characters` argument only feeds the packet's
routing), mark the interaction in Cancel-Responses, notify the external
interruption collaborator, and ask History to filter the cancelled
entries. -/
def ConnectionService.sendCancelResponses (env : Env)
    (s : ConnectionService) (props : CancelResponsesProps) : ConnectionService :=
  if props.interactionId != "" then
    let s1 := s.sendCancelPacket env (EventFactory.cancelResponse props)
    let s2 := { s1 with cancelResponses := insertId s1.cancelResponses props.interactionId }
    let interruptionData : CancelResponsesProps :=
      { interactionId := props.interactionId, utteranceId := props.utteranceId }
    let s3 := { s2 with onInterruptionLog := s2.onInterruptionLog ++ [interruptionData] }
    { s3 with history := historyFilter s3.history interruptionData }
  else s

/-- Source: `interruptByPacket(packet)` (lines 593-621): no-op unless the
interruptions capability is enabled; ask the playback collaborator to
stop everything queued or playing for the packet's interaction; if any
packets were stopped, send a cancel-response naming the first stopped
packet's interaction id and all the stopped utterance ids. -/
def ConnectionService.interruptByPacket (env : Env) (player : Player)
    (s : ConnectionService) (packet : InworldPacket) : ConnectionService :=
  if !s.config.interruptions then s
  else
    let packets := player.stopForInteraction packet.packetId.interactionId
    match packets with
    | [] => s
    | q :: _ =>
      s.sendCancelResponses env
        { interactionId := q.packetId.interactionId,
          utteranceId := packets.map (fun pk => pk.packetId.utteranceId) }

/-- Source: `write` with the interruption hook tied to the real
`interruptByPacket`. -/
def ConnectionService.write (env : Env) (player : Player)
    (s : ConnectionService) (p : InworldPacket) : ConnectionService :=
  ConnectionService.writeCore
    (fun s' q => ConnectionService.interruptByPacket env player s' q) env s p

/-- Public `send` with the real write behaviour. -/
def ConnectionService.send (env : Env) (player : Player)
    (s : ConnectionService) (p : InworldPacket) : ConnectionService :=
  ConnectionService.sendWith (ConnectionService.write env player) env s p

/-- Public `interrupt()` (lines 250-257): interrupt by the playback
collaborator's current packet, when there is one. -/
def ConnectionService.interrupt (env : Env) (player : Player)
    (s : ConnectionService) : ConnectionService :=
  match player.currentPacket with
  | some packet => s.interruptByPacket env player packet
  | none => s

/-- The `this.onMessage` inbound handler (lines 492-562), called for
every packet the transport delivers:

1. on interaction-end, drop the interaction from Packets-In-Progress;
2. a TEXT packet not sourced from the player whose interaction carries an
   active cancel marker is answered with a cancel-response for its own
   utterance and suppressed (early return: no playback, no history, no
   external `onMessage`);
3. a TEXT packet sourced from the player runs the interruption protocol;
4. AUDIO or SILENCE packets of uncancelled interactions are enqueued to
   the playback collaborator (its play hooks only mirror into history
   later and are not modelled);
5. on interaction-end, clear the cancel marker;
6. append the packet to history and forward it to the external
   `onMessage` collaborator. -/
def ConnectionService.onMessageHandler (env : Env) (player : Player)
    (s : ConnectionService) (packet : InworldPacket) : ConnectionService :=
  let interactionId := packet.packetId.interactionId
  let s1 :=
    if packet.isInteractionEnd then
      { s with packetsInProgress := eraseKey s.packetsInProgress interactionId }
    else s
  if packet.isText && !packet.routing.source.isPlayer
      && s1.cancelResponses.contains interactionId then
    s1.sendCancelResponses env
      { interactionId := interactionId,
        utteranceId := [packet.packetId.utteranceId] }
  else
    let s2 :=
      if packet.isText && packet.routing.source.isPlayer then
        s1.interruptByPacket env player packet
      else s1
    let s3 :=
      if (packet.isAudio || packet.isSilence)
          && !(s2.cancelResponses.contains interactionId) then
        { s2 with audioQueueAdds := s2.audioQueueAdds ++ [packet] }
      else s2
    let s4 :=
      if packet.isInteractionEnd then
        { s3 with cancelResponses := eraseId s3.cancelResponses interactionId }
      else s3
    let s5 := s4.addPacketToHistory packet
    { s5 with onMessageLog := s5.onMessageLog ++ [packet] }

/-! ## Session-state persistence loop: `SessionStateService`

From the SessionStateService class bundled in connection.service.ts.  A
tick of the recurring save timer (`tryToSaveState`) and a tick of the
bounded-retry poller it starts are modelled as single steps; the
`connection.getHistory()` view this service reads consists of history
items with a timestamp and a `CHAT_HISTORY_TYPE`, and the previously
persisted snapshot is observed through the truthy `creationTime` parsed
from localStorage. -/

/-- Source: `DEFAULT_SESSION_STATE_MAX_ATTEMPTS` (constants.ts line 7). -/
def DEFAULT_SESSION_STATE_MAX_ATTEMPTS : Nat := 3

inductive CHAT_HISTORY_TYPE
  | ACTOR
  | NARRATED_ACTION
  | INTERACTION_END
  | OTHER
deriving DecidableEq, Repr

structure HistoryItem where
  date : Nat
  type : CHAT_HISTORY_TYPE
deriving DecidableEq, Repr

/-- What one save step observes of its surroundings: the history view,
the `creationTime` of the persisted snapshot when one is stored and
parses (in the same clock as `HistoryItem.date`), and
`connection.hasPacketsInProgress()`. -/
structure SaveEnv where
  history : List HistoryItem
  storedCreationTime : Option Nat
  hasPacketsInProgress : Bool
deriving DecidableEq, Repr

structure SessionStateService where
  isSaving : Bool
  maxAttempts : Nat
deriving DecidableEq, Repr

def SessionStateService.init : SessionStateService :=
  { isSaving := false, maxAttempts := DEFAULT_SESSION_STATE_MAX_ATTEMPTS }

/-- One tick of the recurring save timer, `tryToSaveState()` up to the
point where the bounded-retry poller is created.  Returns the service
state together with whether the poller was started (`false` = the
attempt was skipped and the persisted snapshot left untouched). -/
def SessionStateService.tryToSaveState (svc : SessionStateService)
    (env : SaveEnv) : SessionStateService × Bool :=
  if svc.isSaving then (svc, false)
  else
    let svc1 := { svc with isSaving := true }
    match env.history.getLast? with
    | none => ({ svc1 with isSaving := false }, false)
    | some lastItem =>
      match env.storedCreationTime with
      | some ct =>
        if ct > lastItem.date then ({ svc1 with isSaving := false }, false)
        else (svc1, true)
      | none => (svc1, true)

inductive PollAction
  | save
  | wait
deriving DecidableEq, Repr

/-- One tick of the bounded-retry poller inside `tryToSaveState`:
increment the attempt counter; at or beyond the maximum attempt count
save unconditionally; otherwise wait while packets are in progress, and
save only when the latest history entry is an interaction-end marker. -/
def SessionStateService.pollStep (svc : SessionStateService)
    (attempts : Nat) (env : SaveEnv) : Nat × PollAction :=
  let attempts1 := attempts + 1
  if attempts1 >= svc.maxAttempts then (attempts1, PollAction.save)
  else if env.hasPacketsInProgress then (attempts1, PollAction.wait)
  else
    match env.history.getLast? with
    | some lastItem =>
      if lastItem.type == CHAT_HISTORY_TYPE.INTERACTION_END then
        (attempts1, PollAction.save)
      else (attempts1, PollAction.wait)
    | none => (attempts1, PollAction.wait)

/-- The persisted snapshot is newer than the latest history entry (the
redundant-write guard of `tryToSaveState`). -/
def SaveEnv.storedNewer (env : SaveEnv) : Bool :=
  match env.history.getLast?, env.storedCreationTime with
  | some lastItem, some ct => ct > lastItem.date
  | _, _ => false

/-- The latest history entry is an interaction-end marker. -/
def SaveEnv.lastIsInteractionEnd (env : SaveEnv) : Bool :=
  match env.history.getLast? with
  | some lastItem => lastItem.type == CHAT_HISTORY_TYPE.INTERACTION_END
  | none => false

/-! ## Concrete fixtures for witnesses and counterexamples -/

def playerActor : Actor :=
  { name := "player", isPlayer := true, isCharacter := false }

def charActor : Actor :=
  { name := "char-1", isPlayer := false, isCharacter := true }

/-- A TEXT packet sent by the player for interaction i1. -/
def textPktPlayer : InworldPacket :=
  { packetId := { packetId := "pk-1", interactionId := "i1", utteranceId := "u1" },
    routing := { source := playerActor, targets := [charActor] },
    date := "t0",
    type := InworldPacketType.TEXT,
    text := some { text := "hello", final := true } }

/-- A TEXT packet sourced from the character for interaction i1. -/
def textPktChar : InworldPacket :=
  { packetId := { packetId := "pk-2", interactionId := "i1", utteranceId := "u2" },
    routing := { source := charActor, targets := [playerActor] },
    date := "t1",
    type := InworldPacketType.TEXT,
    text := some { text := "reply", final := false } }

/-- An AUDIO packet of the character utterance u2 of interaction i1. -/
def audioPktChar : InworldPacket :=
  { packetId := { packetId := "pk-3", interactionId := "i1", utteranceId := "u2" },
    routing := { source := charActor, targets := [playerActor] },
    date := "t2",
    type := InworldPacketType.AUDIO,
    audio := some { chunk := "chunk-1" } }

/-- An interaction-end CONTROL packet for interaction i1. -/
def endPkt : InworldPacket :=
  { packetId := { packetId := "pk-4", interactionId := "i1", utteranceId := "u3" },
    routing := { source := charActor, targets := [playerActor] },
    date := "t3",
    type := InworldPacketType.CONTROL,
    control := some { type := InworlControlType.INTERACTION_END } }

/-- A TRIGGER packet sent by the player (e.g. the UI's `sendTrigger`). -/
def triggerPkt : InworldPacket :=
  { packetId := { packetId := "pk-5", interactionId := "i2", utteranceId := "u5" },
    routing := { source := playerActor, targets := [charActor] },
    date := "t4",
    type := InworldPacketType.TRIGGER }

/-- The TEXT packet queued through the orchestrator's `write` while the
transport is inactive (carrying the `serviceWrite` hooks). -/
def serviceTextItem : QueueItem :=
  { packet := textPktPlayer, hook := HookKind.serviceWrite }

/-- The TRIGGER packet queued through the orchestrator's `write` while
the transport is inactive. -/
def serviceTriggerItem : QueueItem :=
  { packet := triggerPkt, hook := HookKind.serviceWrite }

def tokenFresh : SessionToken :=
  { token := "fresh-jwt", type := "Bearer", expirationTime := 1000,
    sessionId := "sess-new" }

def tokenExpired : SessionToken :=
  { token := "old-jwt", type := "Bearer", expirationTime := 5,
    sessionId := "sess-old" }

def sceneFix : Scene := { agents := ["agent-1"], previousStatePackets := [] }

def envFix : Env :=
  { generatedToken := tokenFresh, loadedScene := sceneFix, now := 100 }

/-- Configuration with auto-reconnect and interruptions on, no
disconnect timeout. -/
def cfgDefault : Config :=
  { autoReconnect := some true, disconnectTimeout := none,
    interruptions := true, historyPreviousState := false }

/-- Configuration with auto-reconnect disabled. -/
def cfgNoReconnect : Config :=
  { autoReconnect := some false, disconnectTimeout := none,
    interruptions := true, historyPreviousState := false }

/-- An open, flushed transport. -/
def connOpenFix : WebSocketConnection :=
  { ws := some { readyState := ReadyState.OPEN, listeners := true },
    packetQueue := [], wire := [], disconnectFired := 0, closeCalled := 0 }

/-- An orchestrator in the given state over the given transport and
configuration, with empty bookkeeping. -/
def baseService (cfg : Config) (st : ConnectionState)
    (conn : WebSocketConnection) : ConnectionService :=
  { state := st, session := some tokenFresh, scene := some sceneFix,
    conn := conn, config := cfg,
    ttsPlaybackAction := TtsPlaybackAction.UNKNOWN,
    cancelResponses := [], packetsInProgress := [], history := [],
    audioQueueAdds := [], onMessageLog := [], onInterruptionLog := [],
    onErrorLog := [], disconnectTimerArmed := false }

/-- A player oracle reporting no current packet and nothing to stop. -/
def playerIdle : Player :=
  { currentPacket := none, stopForInteraction := fun _ => [] }

/-- A player oracle with the character utterance u2 of interaction i1 in
flight. -/
def playerBusy : Player :=
  { currentPacket := some audioPktChar,
    stopForInteraction := fun iid => if iid == "i1" then [audioPktChar] else [] }

/-- A player oracle that reports a current packet but stops nothing. -/
def playerStuck : Player :=
  { currentPacket := some audioPktChar, stopForInteraction := fun _ => [] }

/-- An ACTIVE orchestrator over an open transport. -/
def serviceActiveFix : ConnectionService :=
  baseService cfgDefault ConnectionState.ACTIVE connOpenFix

/-- An INACTIVE orchestrator with auto-reconnect disabled. -/
def serviceInactiveNoReconnect : ConnectionService :=
  baseService cfgNoReconnect ConnectionState.INACTIVE WebSocketConnection.init

/-- An ACTIVE orchestrator with the player TEXT packet of interaction i1
recorded in Packets-In-Progress. -/
def serviceWithProgress : ConnectionService :=
  { serviceActiveFix with packetsInProgress := [("i1", textPktPlayer)] }

/-- An ACTIVE orchestrator holding both a cancel marker and an
in-progress entry for interaction i1. -/
def serviceWithCancelMarker : ConnectionService :=
  { serviceActiveFix with
    cancelResponses := ["i1"],
    packetsInProgress := [("i1", textPktPlayer)] }

/-- An ACTIVE orchestrator whose stored session token has expired. -/
def serviceExpiredSession : ConnectionService :=
  { serviceActiveFix with session := some tokenExpired }

/-- A fully fresh INACTIVE orchestrator: no session, no scene, closed
transport, auto-reconnect on. -/
def serviceFreshInactive : ConnectionService :=
  { baseService cfgDefault ConnectionState.INACTIVE WebSocketConnection.init with
    session := none, scene := none }

/-- Save-step surroundings with in-flight packets cleared but the latest
history entry not an interaction-end marker. -/
def saveEnvCleared : SaveEnv :=
  { history := [{ date := 50, type := CHAT_HISTORY_TYPE.ACTOR }],
    storedCreationTime := none, hasPacketsInProgress := false }

/-! ## Transport-channel lemmas and claims -/

theorem microtaskFlush_nil (wire : List InworldPacket) :
    microtaskFlush [] wire = wire := by
  rw [microtaskFlush.eq_def]

theorem microtaskFlush_deliver (item : QueueItem) (n : Nat)
    (rest : List (QueueItem × Nat)) (wire : List InworldPacket)
    (h : n <= 1) :
    microtaskFlush ((item, n) :: rest) wire
      = microtaskFlush rest (wire ++ [item.packet]) := by
  conv_lhs => rw [microtaskFlush.eq_def]
  simp [h]

theorem microtaskFlush_requeue (item : QueueItem) (n : Nat)
    (rest : List (QueueItem × Nat)) (wire : List InworldPacket)
    (h : ¬ n <= 1) :
    microtaskFlush ((item, n) :: rest) wire
      = microtaskFlush (rest ++ [(item, n - 1)]) wire := by
  conv_lhs => rw [microtaskFlush.eq_def]
  simp [h]

/-- C1 (code bug): queued items are NOT always delivered to the wire in
the order they were enqueued.  A TEXT item written while the channel is
inactive, followed by a queued TRIGGER item (both carrying the
orchestrator's `serviceWrite` hooks, both reachable through `send` while
inactive), is flushed on the first ready signal after `open` with the
TRIGGER frame on the wire BEFORE the TEXT frame: the flush fires the
async writes without awaiting them, the TRIGGER write reaches `ws.send`
after one microtask, and the TEXT write is still suspended in its
awaited `beforeWriting` hook (which awaits `interruptByPacket`).  The
claim, the spec's ordering guarantee, and the source's own comment
(connection.service.ts line 310: the packet is queued first "to
guarantee the order of packets") all require enqueue-order delivery. -/
theorem flush_reorders_queued_text :
    ((((WebSocketConnection.init.writeInactive serviceTextItem).writeInactive
        serviceTriggerItem).openSocket []).onReadyFlush).wire
      = [triggerPkt, textPktPlayer]
    ∧ ((((WebSocketConnection.init.writeInactive serviceTextItem).writeInactive
        serviceTriggerItem).openSocket []).packetQueue).map QueueItem.packet
      = [textPktPlayer, triggerPkt]
    ∧ ([triggerPkt, textPktPlayer] : List InworldPacket)
      ≠ [textPktPlayer, triggerPkt] := by
  refine ⟨?_, by decide, by decide⟩
  show microtaskFlush [(serviceTextItem, 2), (serviceTriggerItem, 1)] []
    = [triggerPkt, textPktPlayer]
  rw [microtaskFlush_requeue serviceTextItem 2 [(serviceTriggerItem, 1)] []
      (by omega)]
  show microtaskFlush [(serviceTriggerItem, 1), (serviceTextItem, 1)] []
    = [triggerPkt, textPktPlayer]
  rw [microtaskFlush_deliver serviceTriggerItem 1 [(serviceTextItem, 1)] []
      (by omega)]
  show microtaskFlush [(serviceTextItem, 1)] [triggerPkt]
    = [triggerPkt, textPktPlayer]
  rw [microtaskFlush_deliver serviceTextItem 1 [] [triggerPkt] (by omega)]
  show microtaskFlush [] [triggerPkt, textPktPlayer]
    = [triggerPkt, textPktPlayer]
  rw [microtaskFlush_nil]

/-- C8: `close()` on the transport channel nulls the socket (all
listeners detached) and clears the internal queue in every state; it
calls `ws.close()` and fires the disconnect collaborator exactly once
when the socket was active and not at all otherwise; and a second
`close()` on the already-closed channel is a no-op that changes nothing
and fires no callback. -/
theorem transport_close_idempotent (c : WebSocketConnection) :
    (c.close).ws = none
    ∧ (c.close).packetQueue = []
    ∧ (c.close).closeCalled = c.closeCalled + (if c.isActive then 1 else 0)
    ∧ (c.close).disconnectFired = c.disconnectFired + (if c.isActive then 1 else 0)
    ∧ (c.close).close = c.close := by
  cases hws : c.ws with
  | none =>
    unfold WebSocketConnection.close WebSocketConnection.isActive
    simp [hws]
  | some s =>
    cases hrs : s.readyState with
    | OPEN =>
      unfold WebSocketConnection.close WebSocketConnection.isActive
      simp [hws, hrs]
    | CONNECTING =>
      unfold WebSocketConnection.close WebSocketConnection.isActive
      simp [hws, hrs]
    | CLOSED =>
      unfold WebSocketConnection.close WebSocketConnection.isActive
      simp [hws, hrs]

/-! ## Session-state persistence claims -/

theorem getLast?_eq_none_iff (l : List HistoryItem) :
    l.getLast? = none ↔ l = [] := by
  constructor
  · intro h
    by_contra hne
    have hs : l.getLast?.isSome := List.getLast?_isSome.mpr hne
    rw [h] at hs
    simp at hs
  · intro h
    subst h
    rfl

/-- C9 counterexample: with in-flight interactive packets cleared but a
latest history entry that is not an interaction-end marker, the first
tick of the bounded-retry poller does not save — refuting the claim that
clearing of in-flight packets alone triggers an immediate save. -/
theorem poll_cleared_without_end_does_not_save :
    saveEnvCleared.hasPacketsInProgress = false
    ∧ (SessionStateService.init.pollStep 0 saveEnvCleared).2 = PollAction.wait
    ∧ PollAction.wait ≠ PollAction.save := by decide

/-- C9 (amended): a save tick is skipped exactly when a save is already
in flight, history is empty, or the persisted snapshot's creation time
is newer than the latest history entry; each poller tick increments the
attempt counter; and a poller tick saves exactly when the incremented
attempt count has reached the maximum attempt count, or when in-flight
interactive packets have cleared AND the latest history entry is an
interaction-end marker (both conditions together, not either alone). -/
theorem sessionState_save_step_conditions (svc : SessionStateService)
    (env : SaveEnv) (attempts : Nat) :
    ((svc.tryToSaveState env).2 = true ↔
       svc.isSaving = false ∧ env.history ≠ [] ∧ env.storedNewer = false)
    ∧ (svc.pollStep attempts env).1 = attempts + 1
    ∧ ((svc.pollStep attempts env).2 = PollAction.save ↔
       attempts + 1 >= svc.maxAttempts
       ∨ (env.hasPacketsInProgress = false ∧ env.lastIsInteractionEnd = true)) := by
  refine ⟨?_, ?_, ?_⟩
  · unfold SessionStateService.tryToSaveState SaveEnv.storedNewer
    cases hs : svc.isSaving with
    | true => simp [hs]
    | false =>
      cases hl : env.history.getLast? with
      | none =>
        have hnil : env.history = [] := (getLast?_eq_none_iff _).mp hl
        simp [hl, hnil]
      | some li =>
        have hne : env.history ≠ [] := by
          intro hnil
          rw [hnil] at hl
          simp at hl
        cases hc : env.storedCreationTime with
        | none => simp [hl, hc, hne]
        | some ct =>
          by_cases hgt : ct > li.date
          · simp [hl, hc, hgt, hne]
          · simp [hl, hc, hgt, hne]
  · unfold SessionStateService.pollStep
    dsimp only
    repeat' split
    all_goals rfl
  · unfold SessionStateService.pollStep SaveEnv.lastIsInteractionEnd
    by_cases hmax : attempts + 1 >= svc.maxAttempts
    · simp [hmax]
    · cases hp : env.hasPacketsInProgress with
      | true => simp [hmax, hp]
      | false =>
        cases hl : env.history.getLast? with
        | none => simp [hmax, hp, hl]
        | some li =>
          by_cases ht : li.type = CHAT_HISTORY_TYPE.INTERACTION_END
          · simp [hmax, hp, hl, ht]
          · simp [hmax, hp, hl, ht]

/-! ## Session-token claim -/

/-- C6 (code bug): with a stored-but-expired session carrying a session
id, `ensureSessionToken` is specified to store the newly generated
credential with only the `sessionId` preserved; the source instead
spreads the OLD session (`{...this.session, sessionId}`), so the expired
credential is kept verbatim and the freshly generated token is
discarded — the stored session afterwards is still the expired one and
differs from the specified refresh result. -/
theorem ensureSessionToken_keeps_expired_session :
    (ConnectionService.ensureSessionToken envFix serviceExpiredSession false).session
      = some tokenExpired
    ∧ SessionToken.isExpired envFix.now tokenExpired = true
    ∧ tokenExpired ≠ { envFix.generatedToken with sessionId := tokenExpired.sessionId } :=
  ⟨rfl, rfl, by decide⟩

/-! ## Auth-error reconnection claim -/

/-- C3 (code bug): an inbound "invalid JWT token" error with
auto-reconnect enabled does discard the session token and the loaded
scene and re-invokes `open()` (the state proceeds to ACTIVATING with a
freshly generated session and reloaded scene) — but the entries of
Packets-In-Progress are NOT included in the next open's send-on-open
packet set: the handler resets the state to INACTIVE, while
`getPacketsToSentOnOpen` replays the map only in the RECONNECTING state
(which no assignment in the source ever establishes), so the transport
queue stays empty and the map is left unconsumed. -/
theorem authError_reconnect_drops_replay :
    (ConnectionService.onErrorHandler envFix serviceWithProgress invalidToken).state
      = ConnectionState.ACTIVATING
    ∧ (ConnectionService.onErrorHandler envFix serviceWithProgress invalidToken).session
      = some envFix.generatedToken
    ∧ (ConnectionService.onErrorHandler envFix serviceWithProgress invalidToken).scene
      = some envFix.loadedScene
    ∧ (ConnectionService.onErrorHandler envFix serviceWithProgress invalidToken).conn.packetQueue
      = []
    ∧ (ConnectionService.onErrorHandler envFix serviceWithProgress invalidToken).packetsInProgress
      = [("i1", textPktPlayer)] :=
  ⟨rfl, rfl, rfl, rfl, rfl⟩

/-! ## Orchestrator helper lemmas -/

theorem lookupKey_eraseKey (l : List (String × InworldPacket)) (k : String) :
    lookupKey (eraseKey l k) k = none := by
  induction l with
  | nil => rfl
  | cons kv t ih =>
    by_cases hk : kv.1 = k
    · have h1 : eraseKey (kv :: t) k = eraseKey t k := by
        unfold eraseKey
        simp [List.filter_cons, hk]
      rw [h1, ih]
    · have h1 : eraseKey (kv :: t) k = kv :: eraseKey t k := by
        unfold eraseKey
        simp [List.filter_cons, hk]
      rw [h1]
      unfold lookupKey at ih ⊢
      rw [List.find?_cons_of_neg _ (by simp [hk])]
      exact ih

theorem contains_eraseId (l : List String) (k : String) :
    (eraseId l k).contains k = false := by
  induction l with
  | nil => rfl
  | cons a t ih =>
    by_cases ha : a = k
    · have h1 : eraseId (a :: t) k = eraseId t k := by
        unfold eraseId
        simp [List.filter_cons, ha]
      rw [h1, ih]
    · have h1 : eraseId (a :: t) k = a :: eraseId t k := by
        unfold eraseId
        simp [List.filter_cons, ha]
      rw [h1]
      have hbeq : (k == a) = false := beq_eq_false_iff_ne.mpr (Ne.symm ha)
      simp only [List.contains_cons, hbeq, Bool.false_or]
      exact ih

/-! ## Interaction-end bookkeeping claim -/

/-- C4: after the inbound handler processes an interaction-end packet
for an interaction id, that id is absent from both the
Packets-In-Progress map and the Cancel-Responses map. -/
theorem interactionEnd_clears_progress_and_cancel (env : Env)
    (player : Player) (s : ConnectionService) (p : InworldPacket)
    (h : p.isInteractionEnd = true) :
    lookupKey (ConnectionService.onMessageHandler env player s p).packetsInProgress
        p.packetId.interactionId = none
    ∧ (ConnectionService.onMessageHandler env player s p).cancelResponses.contains
        p.packetId.interactionId = false := by
  have htype : p.type = InworldPacketType.CONTROL := by
    unfold InworldPacket.isInteractionEnd InworldPacket.isControl at h
    exact eq_of_beq ((Bool.and_eq_true _ _).mp h).1
  have hText : p.isText = false := by simp [InworldPacket.isText, htype]
  have hAudio : p.isAudio = false := by simp [InworldPacket.isAudio, htype]
  have hSilence : p.isSilence = false := by simp [InworldPacket.isSilence, htype]
  unfold ConnectionService.onMessageHandler
  simp only [h, hText, hAudio, hSilence, ConnectionService.addPacketToHistory,
    Bool.false_and, Bool.and_false, Bool.or_self, Bool.false_or, Bool.or_false,
    if_true, if_false, ite_true, ite_false, Bool.false_eq_true]
  exact ⟨lookupKey_eraseKey _ _, contains_eraseId _ _⟩

/-- C4 witness: the handler applied to the concrete interaction-end
packet of interaction i1, over a service holding both an in-progress
entry and a cancel marker for i1, leaves i1 in neither map. -/
theorem interactionEnd_clears_witness :
    endPkt.isInteractionEnd = true
    ∧ (lookupKey (ConnectionService.onMessageHandler envFix playerIdle
          serviceWithCancelMarker endPkt).packetsInProgress
          endPkt.packetId.interactionId = none
      ∧ (ConnectionService.onMessageHandler envFix playerIdle
          serviceWithCancelMarker endPkt).cancelResponses.contains
          endPkt.packetId.interactionId = false) :=
  ⟨by decide, interactionEnd_clears_progress_and_cancel envFix playerIdle
      serviceWithCancelMarker endPkt (by decide)⟩

theorem cancelResponse_not_text (props : CancelResponsesProps) :
    (EventFactory.cancelResponse props).isText = false := rfl

theorem cancelResponse_not_audio (props : CancelResponsesProps) :
    (EventFactory.cancelResponse props).isAudio = false := rfl

theorem scheduleDisconnect_eq (s : ConnectionService) :
    s.scheduleDisconnect =
      { s with disconnectTimerArmed :=
          s.config.disconnectTimeoutTruthy || s.disconnectTimerArmed } := by
  unfold ConnectionService.scheduleDisconnect
  cases h : s.config.disconnectTimeoutTruthy
  · simp
  · simp

/-- Behaviour of `sendCancelResponses` on an ACTIVE orchestrator over an
active transport and a truthy interaction id: the factory-built
cancel-response packet goes straight to the wire, the idle-disconnect
timer is re-armed per configuration, the packet lands in history before
the filter runs, the interaction is marked in Cancel-Responses and the
interruption collaborator is notified. -/
theorem sendCancelResponses_active (env : Env) (s : ConnectionService)
    (props : CancelResponsesProps)
    (hIid : props.interactionId ≠ "")
    (hActive : s.state = ConnectionState.ACTIVE)
    (hConn : s.conn.isActive = true) :
    ConnectionService.sendCancelResponses env s props =
      { s with
        conn := s.conn.sendRaw (EventFactory.cancelResponse props),
        disconnectTimerArmed := s.config.disconnectTimeoutTruthy,
        history := historyFilter (s.history ++ [EventFactory.cancelResponse props]) props,
        cancelResponses := insertId s.cancelResponses props.interactionId,
        onInterruptionLog := s.onInterruptionLog ++ [props] } := by
  have hIid2 : (props.interactionId != "") = true := bne_iff_ne.mpr hIid
  unfold ConnectionService.sendCancelResponses ConnectionService.sendCancelPacket
    ConnectionService.sendWith ConnectionService.writeCore
  simp only [hIid2, if_true, ite_true]
  unfold ConnectionService.cancelScheduler ConnectionService.isActive
  simp only [hActive]
  simp only [cancelResponse_not_text, cancelResponse_not_audio, hConn,
    Bool.false_or, Bool.or_self, Bool.false_eq_true, if_false, ite_false,
    if_true, ite_true]
  rw [scheduleDisconnect_eq]
  unfold ConnectionService.addPacketToHistory
  simp

/-! ## Cancelled-interaction suppression claim -/

/-- C5: an inbound TEXT packet whose source is not the player and whose
interaction id carries an active entry in Cancel-Responses is never
forwarded to the external `onMessage` collaborator and is not appended
to history; instead a cancel-response for that packet's utterance is
emitted on the wire, and the handler returns without further
processing. -/
theorem cancelled_text_suppressed (env : Env) (player : Player)
    (s : ConnectionService) (p : InworldPacket)
    (hT : p.isText = true)
    (hP : p.routing.source.isPlayer = false)
    (hC : s.cancelResponses.contains p.packetId.interactionId = true)
    (hIid : p.packetId.interactionId ≠ "")
    (hActive : s.state = ConnectionState.ACTIVE)
    (hConn : s.conn.isActive = true)
    (hHist : p ∉ s.history) :
    (ConnectionService.onMessageHandler env player s p).onMessageLog = s.onMessageLog
    ∧ p ∉ (ConnectionService.onMessageHandler env player s p).history
    ∧ (ConnectionService.onMessageHandler env player s p).conn.wire
        = s.conn.wire ++ [EventFactory.cancelResponse
            { interactionId := p.packetId.interactionId,
              utteranceId := [p.packetId.utteranceId] }] := by
  have htype : p.type = InworldPacketType.TEXT := by
    simpa [InworldPacket.isText] using hT
  have hIE : p.isInteractionEnd = false := by
    simp [InworldPacket.isInteractionEnd, InworldPacket.isControl, htype]
  have hred : ConnectionService.onMessageHandler env player s p
      = ConnectionService.sendCancelResponses env s
          { interactionId := p.packetId.interactionId,
            utteranceId := [p.packetId.utteranceId] } := by
    unfold ConnectionService.onMessageHandler
    simp only [hIE, hT, hP, hC, Bool.false_eq_true, Bool.not_false,
      Bool.true_and, Bool.and_true, if_false, if_true, ite_true, ite_false]
  rw [hred, sendCancelResponses_active env s _ hIid hActive hConn]
  refine ⟨rfl, ?_, rfl⟩
  intro hmem
  have hmem2 : p ∈ historyFilter
      (s.history ++ [EventFactory.cancelResponse
        { interactionId := p.packetId.interactionId,
          utteranceId := [p.packetId.utteranceId] }])
      { interactionId := p.packetId.interactionId,
        utteranceId := [p.packetId.utteranceId] } := hmem
  unfold historyFilter at hmem2
  have hmem3 := (List.mem_filter.mp hmem2).1
  rcases List.mem_append.mp hmem3 with h1 | h2
  · exact hHist h1
  · have heq : p = EventFactory.cancelResponse
        { interactionId := p.packetId.interactionId,
          utteranceId := [p.packetId.utteranceId] } := by
      simpa using h2
    have hty2 : p.type = InworldPacketType.CANCEL_RESPONSE := by
      rw [heq]
      rfl
    rw [htype] at hty2
    exact InworldPacketType.noConfusion hty2

/-- C5 witness: the character TEXT packet of the already-cancelled
interaction i1 is suppressed — not forwarded, not in history — and a
cancel-response for its utterance u2 appears on the wire. -/
theorem cancelled_text_suppressed_witness :
    (ConnectionService.onMessageHandler envFix playerIdle
        serviceWithCancelMarker textPktChar).onMessageLog
      = serviceWithCancelMarker.onMessageLog
    ∧ textPktChar ∉ (ConnectionService.onMessageHandler envFix playerIdle
        serviceWithCancelMarker textPktChar).history
    ∧ (ConnectionService.onMessageHandler envFix playerIdle
        serviceWithCancelMarker textPktChar).conn.wire
      = serviceWithCancelMarker.conn.wire
        ++ [EventFactory.cancelResponse
              { interactionId := textPktChar.packetId.interactionId,
                utteranceId := [textPktChar.packetId.utteranceId] }] :=
  cancelled_text_suppressed envFix playerIdle serviceWithCancelMarker
    textPktChar (by decide) (by decide) (by decide) (by decide) rfl
    (by decide) (by decide)

/-! ## Interruption-before-TEXT claim -/

/-- C2: sending a TEXT packet through the orchestrator while the
playback collaborator holds stopped-able utterances of the same
interaction (interruptions capability enabled, connection active) puts a
CANCEL_RESPONSE packet naming that interaction and the stopped utterance
ids on the wire strictly before the TEXT packet. -/
theorem text_send_emits_cancel_before_text (env : Env) (player : Player)
    (s : ConnectionService) (p q : InworldPacket) (rest : List InworldPacket)
    (hT : p.isText = true)
    (hCap : s.config.interruptions = true)
    (hStop : player.stopForInteraction p.packetId.interactionId = q :: rest)
    (hSame : q.packetId.interactionId = p.packetId.interactionId)
    (hIid : p.packetId.interactionId ≠ "")
    (hActive : s.state = ConnectionState.ACTIVE)
    (hConn : s.conn.isActive = true) :
    (ConnectionService.send env player s p).conn.wire
      = s.conn.wire
        ++ (EventFactory.cancelResponse
              { interactionId := p.packetId.interactionId,
                utteranceId := (q :: rest).map (fun pk => pk.packetId.utteranceId) }
            :: [p]) := by
  have hActive0 : (s.cancelScheduler).state = ConnectionState.ACTIVE := hActive
  have hConn0 : (s.cancelScheduler).conn.isActive = true := hConn
  have hAct0 : (s.cancelScheduler).isActive = true := by
    unfold ConnectionService.isActive
    rw [hActive0]
    rfl
  have hsend : ConnectionService.send env player s p
      = ConnectionService.write env player s.cancelScheduler p := by
    unfold ConnectionService.send ConnectionService.sendWith
    simp [hAct0]
  have hinter : ConnectionService.interruptByPacket env player s.cancelScheduler p
      = ConnectionService.sendCancelResponses env s.cancelScheduler
          { interactionId := p.packetId.interactionId,
            utteranceId := (q :: rest).map (fun pk => pk.packetId.utteranceId) } := by
    unfold ConnectionService.interruptByPacket
    have hCap0 : (s.cancelScheduler).config.interruptions = true := hCap
    rw [hCap0, hStop]
    simp only [Bool.not_true, Bool.false_eq_true, if_false, ite_false, hSame]
  rw [hsend]
  unfold ConnectionService.write ConnectionService.writeCore
  simp only [hConn0, hT, if_true, ite_true]
  rw [hinter, sendCancelResponses_active env s.cancelScheduler _ hIid hActive0 hConn0]
  simp [ConnectionService.addPacketToHistory, scheduleDisconnect_eq,
    ConnectionService.isActive, ConnectionService.cancelScheduler, hActive,
    WebSocketConnection.sendRaw]

/-- C2 witness: the player TEXT packet for interaction i1 with the
character utterance u2 in flight produces exactly the cancel-response
followed by the TEXT packet on the wire. -/
theorem text_send_emits_cancel_before_text_witness :
    (ConnectionService.send envFix playerBusy serviceActiveFix textPktPlayer).conn.wire
      = serviceActiveFix.conn.wire
        ++ (EventFactory.cancelResponse
              { interactionId := textPktPlayer.packetId.interactionId,
                utteranceId :=
                  (audioPktChar :: []).map (fun pk => pk.packetId.utteranceId) }
            :: [textPktPlayer]) :=
  text_send_emits_cancel_before_text envFix playerBusy serviceActiveFix
    textPktPlayer audioPktChar [] (by decide) (by decide) (by decide)
    (by decide) (by decide) rfl (by decide)

/-! ## Public-send claim -/

/-- Delegation shape of `send`: whenever the connection is ACTIVE or
auto-reconnect is enabled, `send` is `write` after cancelling the
idle-disconnect timer. -/
theorem send_delegates (env : Env) (player : Player)
    (s : ConnectionService) (p : InworldPacket)
    (h : s.isActive = true ∨ s.isAutoReconnected = true) :
    ConnectionService.send env player s p
      = ConnectionService.write env player s.cancelScheduler p := by
  unfold ConnectionService.send ConnectionService.sendWith
  dsimp only
  rcases h with hA | hR
  · have h1 : (s.cancelScheduler).isActive = true := hA
    simp [h1]
  · have h2 : (s.cancelScheduler).isAutoReconnected = true := hR
    simp [h2]

/-- Effect of `open()` from a fresh INACTIVE orchestrator (no session,
no scene, playback not muted): the scene loads, the state reaches
ACTIVATING, the freshly generated session is stored, the transport
socket is created and its queue is not disturbed. -/
theorem openConnection_fresh (env : Env) (s : ConnectionService)
    (hState : s.state = ConnectionState.INACTIVE)
    (hSess : s.session = none) (hScene : s.scene = none)
    (hTts : s.ttsPlaybackAction ≠ TtsPlaybackAction.MUTE) :
    (s.openConnection env).state = ConnectionState.ACTIVATING
    ∧ (s.openConnection env).conn.packetQueue = s.conn.packetQueue
    ∧ (s.openConnection env).conn.ws
        = some { readyState := ReadyState.CONNECTING, listeners := true }
    ∧ (s.openConnection env).session = some env.generatedToken := by
  have h1 : (s.ttsPlaybackAction == TtsPlaybackAction.MUTE) = false :=
    beq_eq_false_iff_ne.mpr hTts
  have h2 : (s.state == ConnectionState.RECONNECTING) = false := by
    rw [hState]
    rfl
  have h3 : (s.state == ConnectionState.LOADING) = false := by
    rw [hState]
    rfl
  unfold ConnectionService.openConnection ConnectionService.getPacketsToSentOnOpen
    ConnectionService.loadScene ConnectionService.ensureSessionToken
  simp only [h1, h2, h3, hSess, hScene, Bool.and_false, Bool.false_eq_true,
    if_false, ite_false]
  cases hphist : s.config.historyPreviousState with
  | true =>
    simp [hphist, WebSocketConnection.openSocket, scheduleDisconnect_eq]
  | false =>
    simp [hphist, WebSocketConnection.openSocket, scheduleDisconnect_eq]

/-- Queueing shape of `write` when the transport is inactive: the item
is appended to the transport queue and, the service being not ACTIVE,
`open()` is invoked on the result. -/
theorem writeCore_queues
    (f : ConnectionService -> InworldPacket -> ConnectionService)
    (env : Env) (s : ConnectionService) (p : InworldPacket)
    (hConnIn : s.conn.isActive = false) (hIn : s.isActive = false) :
    ConnectionService.writeCore f env s p
      = ConnectionService.openConnection env
          { s with conn := { s.conn with packetQueue :=
              s.conn.packetQueue ++ [{ packet := p, hook := HookKind.serviceWrite }] } } := by
  unfold ConnectionService.writeCore
  dsimp only
  simp only [hConnIn, Bool.false_eq_true, if_false, ite_false]
  have h5 : ConnectionService.isActive
      { s with conn := { s.conn with packetQueue :=
          s.conn.packetQueue ++ [{ packet := p, hook := HookKind.serviceWrite }] } }
      = false := hIn
  simp only [h5, Bool.not_false, if_true, ite_true]

/-- C7: `send` while the state is not ACTIVE with auto-reconnect
disabled fails with the "inactive connection" usage error, which is
reported through the `onError` handler while everything except the
cancelled idle timer and the error log stays unchanged (the embedding
returns a state: nothing is thrown across the public boundary); in all
other cases `send` delegates to the transport `write` after cancelling
the idle-disconnect timer, and from a fresh INACTIVE state the packet is
queued on the transport and the connection is opened, the state
proceeding to ACTIVATING. -/
theorem send_error_or_delegates (env : Env) (player : Player)
    (s : ConnectionService) (p : InworldPacket) :
    (s.isActive = false → s.isAutoReconnected = false →
      ConnectionService.send env player s p
        = { s with
            disconnectTimerArmed := false,
            onErrorLog := (s.onErrorLog
              ++ ["Unable to send data due inactive connection"]) })
    ∧ ((s.isActive = true ∨ s.isAutoReconnected = true) →
      ConnectionService.send env player s p
        = ConnectionService.write env player s.cancelScheduler p)
    ∧ (s.isActive = false → s.isAutoReconnected = true →
        s.conn.isActive = false → s.state = ConnectionState.INACTIVE →
        s.session = none → s.scene = none →
        s.ttsPlaybackAction ≠ TtsPlaybackAction.MUTE →
      (ConnectionService.send env player s p).conn.packetQueue
          = s.conn.packetQueue ++ [{ packet := p, hook := HookKind.serviceWrite }]
      ∧ (ConnectionService.send env player s p).state = ConnectionState.ACTIVATING) := by
  refine ⟨?_, send_delegates env player s p, ?_⟩
  · intro hIn hAuto
    unfold ConnectionService.send ConnectionService.sendWith
    dsimp only
    have h1 : (s.cancelScheduler).isActive = false := hIn
    have h2 : (s.cancelScheduler).isAutoReconnected = false := hAuto
    simp only [h1, h2, Bool.not_false, Bool.and_self, if_true, ite_true]
    unfold ConnectionService.onErrorHandler
    dsimp only
    split
    · next hcond =>
      exfalso
      have h4 := ((Bool.and_eq_true _ _).mp hcond).2
      have h5 : s.isAutoReconnected = true := h4
      rw [hAuto] at h5
      exact Bool.noConfusion h5
    · rfl
  · intro hIn hAuto hConnIn hState hSess hScene hTts
    rw [send_delegates env player s p (Or.inr hAuto)]
    unfold ConnectionService.write
    rw [writeCore_queues _ env s.cancelScheduler p hConnIn hIn]
    have hfresh := openConnection_fresh env
        { s.cancelScheduler with conn := { s.cancelScheduler.conn with
            packetQueue := s.cancelScheduler.conn.packetQueue
              ++ [{ packet := p, hook := HookKind.serviceWrite }] } }
        hState hSess hScene hTts
    exact ⟨hfresh.2.1, hfresh.1⟩

/-- C7 witness: sending while INACTIVE with auto-reconnect disabled only
cancels the timer and records the usage error; sending from a fresh
INACTIVE state with auto-reconnect on queues the packet and drives the
state to ACTIVATING. -/
theorem send_error_or_delegates_witness :
    ConnectionService.send envFix playerIdle serviceInactiveNoReconnect textPktPlayer
      = { serviceInactiveNoReconnect with
          disconnectTimerArmed := false,
          onErrorLog := (serviceInactiveNoReconnect.onErrorLog
            ++ ["Unable to send data due inactive connection"]) }
    ∧ ((ConnectionService.send envFix playerIdle serviceFreshInactive textPktPlayer).conn.packetQueue
        = serviceFreshInactive.conn.packetQueue
          ++ [{ packet := textPktPlayer, hook := HookKind.serviceWrite }]
      ∧ (ConnectionService.send envFix playerIdle serviceFreshInactive textPktPlayer).state
        = ConnectionState.ACTIVATING) :=
  ⟨(send_error_or_delegates envFix playerIdle serviceInactiveNoReconnect
      textPktPlayer).1 (by decide) (by decide),
   (send_error_or_delegates envFix playerIdle serviceFreshInactive
      textPktPlayer).2.2 (by decide) (by decide) (by decide) rfl rfl rfl
      (by decide)⟩

/-! ## Interrupt no-op claim -/

/-- C10: the public `interrupt()` is a complete no-op — the whole
orchestrator state, including the wire, the transport queue, both
bookkeeping maps, the history and the interruption log, is unchanged —
when the playback collaborator reports no current packet, and likewise
when it does report one but `stopForInteraction` returns no stopped
packets. -/
theorem interrupt_noop (env : Env) (player : Player) (s : ConnectionService) :
    (player.currentPacket = none → ConnectionService.interrupt env player s = s)
    ∧ (∀ p, player.currentPacket = some p →
        player.stopForInteraction p.packetId.interactionId = [] →
        ConnectionService.interrupt env player s = s) := by
  constructor
  · intro h
    unfold ConnectionService.interrupt
    rw [h]
  · intro p hp hstop
    unfold ConnectionService.interrupt
    rw [hp]
    unfold ConnectionService.interruptByPacket
    cases hc : s.config.interruptions
    · simp [hc]
    · simp [hc, hstop]

/-- C10 witness: `interrupt()` leaves the concrete ACTIVE orchestrator
untouched both for the idle player oracle and for the oracle that
reports a current packet but stops nothing. -/
theorem interrupt_noop_witness :
    ConnectionService.interrupt envFix playerIdle serviceActiveFix = serviceActiveFix
    ∧ ConnectionService.interrupt envFix playerStuck serviceActiveFix = serviceActiveFix :=
  ⟨(interrupt_noop envFix playerIdle serviceActiveFix).1 rfl,
   (interrupt_noop envFix playerStuck serviceActiveFix).2 audioPktChar rfl rfl⟩

/-- The interruption hook passed to `writeCore` is irrelevant for any
packet that is not TEXT: the hook only runs behind the `isText` guard.
This licenses instantiating the hook slot with the identity in
`sendCancelPacket`, whose packet is always a CANCEL_RESPONSE. -/
theorem writeCore_hook_irrelevant
    (f g : ConnectionService -> InworldPacket -> ConnectionService)
    (env : Env) (s : ConnectionService) (p : InworldPacket)
    (h : p.isText = false) :
    ConnectionService.writeCore f env s p
      = ConnectionService.writeCore g env s p := by
  unfold ConnectionService.writeCore
  simp [h]
